import Mathlib

/-!
Shallow embedding of the command-recording validation core of a
Vulkan-style wrapper library (buffer views, attachment-image GPU locks,
queue-capability checking layer, compute-pipeline creation), together
with theorems checking the natural-language specification against it.

Machine integers are modelled as `Nat` with explicit reduction modulo
`2 ^ 64` where wrap-around matters (the `AtomicUsize` GPU-lock counter).
Panics and failed assertions are modelled as `none` of an `Option`;
recoverable errors as `Except.error`.
-/

namespace Vulkano

/-- Width of the platform `usize` type: atomic counters wrap modulo this. -/
def USIZE : Nat := 2 ^ 64

/-! ### Attachment image GPU lock (src/image/attachment.rs)

`AttachmentImage` holds `gpu_lock : AtomicUsize` (the number of times the
image is locked on the GPU side, shared between all access wrappers).
`AttachmentImageAccess` additionally holds `already_locked : AtomicBool`,
set once `try_gpu_lock` has been called on that wrapper instance.
The counter is passed explicitly; an access wrapper's own state is just
the latch. -/

/-- Per-wrapper state of an `AttachmentImageAccess`: the `already_locked`
latch (true once `try_gpu_lock` was called on this instance). -/
structure AccessState where
  alreadyLocked : Bool
deriving DecidableEq, Repr

/-- `Image::access` for `Arc<AttachmentImage>`: a fresh wrapper with the
latch cleared (`AtomicBool::new(false)`). -/
def Image.access : AccessState := { alreadyLocked := false }

/-- `Clone for AttachmentImageAccess`: the clone shares the image (hence
the counter) and copies the current value of the `already_locked` latch. -/
def clone_access (a : AccessState) : AccessState :=
  { alreadyLocked := a.alreadyLocked }

/-- `AttachmentImageAccess::try_gpu_lock`: `already_locked.swap(true)`
(unconditionally sets the latch, early-returns `false` if it was already
set), then `gpu_lock.compare_and_swap(0, 1)` which succeeds exactly when
the shared counter is `0`, setting it to `1`. Returns
(result, new wrapper state, new counter). -/
def try_gpu_lock (a : AccessState) (gpuLock : Nat) : Bool × AccessState × Nat :=
  if a.alreadyLocked then
    (false, { alreadyLocked := true }, gpuLock)
  else if gpuLock = 0 then
    (true, { alreadyLocked := true }, 1)
  else
    (false, { alreadyLocked := true }, gpuLock)

/-- `AttachmentImageAccess::increase_gpu_lock`: `gpu_lock.fetch_add(1)`,
wrapping modulo `2 ^ 64`. -/
def increase_gpu_lock (gpuLock : Nat) : Nat := (gpuLock + 1) % USIZE

/-- The `debug_assert!` conditions of `increase_gpu_lock`: the latch must
be set and the previous counter value must be at least 1. -/
def increase_gpu_lock_assert (a : AccessState) (gpuLock : Nat) : Bool :=
  a.alreadyLocked && decide (1 ≤ gpuLock)

/-- `Drop for AttachmentImageAccess`: when the latch is set, performs
`gpu_lock.fetch_sub(1)` (wrapping modulo `2 ^ 64`); otherwise the counter
is untouched. -/
def drop_access (a : AccessState) (gpuLock : Nat) : Nat :=
  if a.alreadyLocked then (gpuLock + (USIZE - 1)) % USIZE else gpuLock

/-- The `debug_assert!(prev_val >= 1)` of `Drop`: when the latch is set,
the counter value before the decrement must be at least 1. -/
def drop_access_assert (a : AccessState) (gpuLock : Nat) : Bool :=
  !a.alreadyLocked || decide (1 ≤ gpuLock)

/-! ### Queue-capability check layer (src/command_buffer/cb/queue_ty_check.rs)

Every raw command kind for which `QueueTyCheckLayer` implements
`AddCommand`. `CmdBindPipeline` and `CmdBindDescriptorSets` carry the
`is_graphics` flag their `add` impls inspect. -/

/-- Raw command kinds accepted by the queue-type-check layer. -/
inductive Cmd where
  | CmdCopyBuffer
  | CmdCopyBufferToImage
  | CmdCopyImage
  | CmdFillBuffer
  | CmdUpdateBuffer
  | CmdBeginRenderPass
  | CmdBindIndexBuffer
  | CmdBindVertexBuffers
  | CmdBlitImage
  | CmdClearAttachments
  | CmdDrawIndexedRaw
  | CmdDrawIndirectRaw
  | CmdDrawRaw
  | CmdEndRenderPass
  | CmdNextSubpass
  | CmdResolveImage
  | CmdDispatchRaw
  | CmdPushConstants
  | CmdSetEvent
  | CmdSetState
  | CmdBindPipeline (gr : Bool)
  | CmdBindDescriptorSets (gr : Bool)
deriving DecidableEq, Repr

/-- `QueueTyCheckLayer<I>`: the wrapped inner builder (modelled as the
raw list of recorded commands) plus the two capability booleans captured
at construction. -/
structure QueueTyCheckLayer where
  inner : List Cmd
  supports_graphics : Bool
  supports_compute : Bool
deriving DecidableEq, Repr

/-- `QueueTyCheckLayer::new`. -/
def QueueTyCheckLayer.new (inner : List Cmd) (sg sc : Bool) : QueueTyCheckLayer :=
  { inner := inner, supports_graphics := sg, supports_compute := sc }

/-- The `assert!` each `AddCommand` impl performs before forwarding, one
branch per impl: the `q_ty_impl_always!` commands assert nothing, the
`q_ty_impl_graphics!` ones assert `supports_graphics()`, `CmdDispatchRaw`
asserts `supports_compute()`, the `q_ty_impl_graphics_or_compute!` ones
assert the disjunction, and the two bind commands branch on their own
`is_graphics()` flag. -/
def QueueTyCheckLayer.assertOk (l : QueueTyCheckLayer) : Cmd → Bool
  | .CmdCopyBuffer => true
  | .CmdCopyBufferToImage => true
  | .CmdCopyImage => true
  | .CmdFillBuffer => true
  | .CmdUpdateBuffer => true
  | .CmdBeginRenderPass => l.supports_graphics
  | .CmdBindIndexBuffer => l.supports_graphics
  | .CmdBindVertexBuffers => l.supports_graphics
  | .CmdBlitImage => l.supports_graphics
  | .CmdClearAttachments => l.supports_graphics
  | .CmdDrawIndexedRaw => l.supports_graphics
  | .CmdDrawIndirectRaw => l.supports_graphics
  | .CmdDrawRaw => l.supports_graphics
  | .CmdEndRenderPass => l.supports_graphics
  | .CmdNextSubpass => l.supports_graphics
  | .CmdResolveImage => l.supports_graphics
  | .CmdDispatchRaw => l.supports_compute
  | .CmdPushConstants => l.supports_graphics || l.supports_compute
  | .CmdSetEvent => l.supports_graphics || l.supports_compute
  | .CmdSetState => l.supports_graphics || l.supports_compute
  | .CmdBindPipeline gr => if gr then l.supports_graphics else l.supports_compute
  | .CmdBindDescriptorSets gr => if gr then l.supports_graphics else l.supports_compute

/-- `AddCommand::add` on `QueueTyCheckLayer`: run the command's capability
assertion (`none` models the `assert!` aborting the process), then forward
the command to the inner builder and rewrap with the same capability
booleans. -/
def QueueTyCheckLayer.add (l : QueueTyCheckLayer) (command : Cmd) :
    Option QueueTyCheckLayer :=
  if l.assertOk command then
    some { inner := l.inner ++ [command],
           supports_graphics := l.supports_graphics,
           supports_compute := l.supports_compute }
  else
    none

/-! ### Buffer views (src/buffer/view.rs) -/

/-- `OomError`: the two native resource-exhaustion severities. -/
inductive OomError where
  | OutOfHostMemory
  | OutOfDeviceMemory
deriving DecidableEq, Repr

/-- Native error codes returned by driver calls (the crate-level `Error`
type, outside src; the variants referenced by the in-src `From` impls plus
representative others covered by their catch-all arm). -/
inductive Error where
  | OutOfHostMemory
  | OutOfDeviceMemory
  | InitializationFailed
  | DeviceLost
  | MemoryMapFailed
  | TooManyObjects
  | FormatNotSupported
deriving DecidableEq, Repr

/-- `vk::FORMAT_FEATURE_UNIFORM_TEXEL_BUFFER_BIT`. -/
def FORMAT_FEATURE_UNIFORM_TEXEL_BUFFER_BIT : Nat := 8

/-- `vk::FORMAT_FEATURE_STORAGE_TEXEL_BUFFER_BIT`. -/
def FORMAT_FEATURE_STORAGE_TEXEL_BUFFER_BIT : Nat := 16

/-- `vk::FORMAT_FEATURE_STORAGE_TEXEL_BUFFER_ATOMIC_BIT`. -/
def FORMAT_FEATURE_STORAGE_TEXEL_BUFFER_ATOMIC_BIT : Nat := 32

/-- A format as `BufferView::unchecked` consumes it: its numeric code
(used to query per-format buffer features) and `format.size()`, which is
`none` for block-compressed formats (where the code's
`.expect("Can't use a compressed format for buffer views")` panics). -/
structure Format where
  code : Nat
  size : Option Nat
deriving DecidableEq, Repr

/-- The backing buffer as seen by `BufferView::unchecked`: its size in
bytes and the two texel-buffer usage flags declared at creation. -/
structure UnsafeBuffer where
  size : Nat
  usage_uniform_texel_buffer : Bool
  usage_storage_texel_buffer : Bool
deriving DecidableEq, Repr

/-- The device-side inputs of `BufferView::unchecked`: the
`maxTexelBufferElements` limit (a `u32`) and
`GetPhysicalDeviceFormatProperties(..).bufferFeatures` as a function of
the format code. -/
structure PhysicalDevice where
  max_texel_buffer_elements : Nat
  formatBufferFeatures : Nat → Nat

/-- `BufferViewCreationError` (src/buffer/view.rs). -/
inductive BufferViewCreationError where
  | OomError (e : OomError)
  | WrongBufferUsage
  | UnsupportedFormat
  | MaxTexelBufferElementsExceeded
deriving DecidableEq, Repr

/-- The successfully created view: the native handle, the stored backing
buffer, and the derived `atomic_accesses` flag. -/
structure BufferView where
  view : Nat
  buffer : UnsafeBuffer
  atomic_accesses : Bool
deriving DecidableEq, Repr

/-- `BufferView::unchecked`. The outcome of the native
`vk.CreateBufferView` call is passed in as `createBufferView`; per the
spec, any driver failure at that call maps to `OomError`, so a failing
call is given directly as the `OomError` it maps to. `none` models a
panic (compressed format). The four runtime checks appear in source
order: usage flags, element count against the device limit, per-declared
usage format-feature bits, then the native creation call. -/
def BufferView.unchecked (org_buffer : UnsafeBuffer) (format : Format)
    (device : PhysicalDevice) (createBufferView : Except OomError Nat) :
    Option (Except BufferViewCreationError BufferView) :=
  if !org_buffer.usage_uniform_texel_buffer && !org_buffer.usage_storage_texel_buffer then
    some (Except.error BufferViewCreationError.WrongBufferUsage)
  else
    match format.size with
    | none => none
    | some fsize =>
      if org_buffer.size / fsize > device.max_texel_buffer_elements then
        some (Except.error BufferViewCreationError.MaxTexelBufferElementsExceeded)
      else
        let format_props := device.formatBufferFeatures format.code
        if org_buffer.usage_uniform_texel_buffer &&
            (format_props &&& FORMAT_FEATURE_UNIFORM_TEXEL_BUFFER_BIT == 0) then
          some (Except.error BufferViewCreationError.UnsupportedFormat)
        else if org_buffer.usage_storage_texel_buffer &&
            (format_props &&& FORMAT_FEATURE_STORAGE_TEXEL_BUFFER_BIT == 0) then
          some (Except.error BufferViewCreationError.UnsupportedFormat)
        else
          match createBufferView with
          | Except.error e => some (Except.error (BufferViewCreationError.OomError e))
          | Except.ok output =>
            some (Except.ok
              { view := output,
                buffer := org_buffer,
                atomic_accesses :=
                  format_props &&& FORMAT_FEATURE_STORAGE_TEXEL_BUFFER_ATOMIC_BIT != 0 })

/-- `BufferView::new`: the checked constructor only adds compile-time
trait bounds pairing the format with the buffer's element type; at
runtime it delegates directly to `BufferView::unchecked`. -/
def BufferView.new (buffer : UnsafeBuffer) (format : Format)
    (device : PhysicalDevice) (createBufferView : Except OomError Nat) :
    Option (Except BufferViewCreationError BufferView) :=
  BufferView.unchecked buffer format device createBufferView

/-! ### Compute pipeline creation (src/pipeline/compute_pipeline.rs) -/

/-- Descriptor types for pipeline-layout bindings. -/
inductive DescriptorType where
  | UniformBuffer
  | StorageBuffer
  | SampledImage
  | StorageImage
  | Sampler
deriving DecidableEq, Repr

/-- A pipeline-layout description: the set of (set index, binding index,
descriptor type) triples it declares. -/
structure PipelineLayoutDesc where
  bindings : List (Nat × Nat × DescriptorType)
deriving DecidableEq, Repr

/-- Modelled from the spec: `PipelineLayoutSuperset::is_superset_of`
(descriptor/pipeline_layout, not in src). Per the spec, the built layout
is a superset of what the shader requires when every binding/descriptor
the shader references exists with compatible type in the layout. -/
def PipelineLayoutSuperset.is_superset_of (pl shader : PipelineLayoutDesc) : Bool :=
  shader.bindings.all (fun b => pl.bindings.contains b)

/-- `ComputePipelineCreationError` (src/pipeline/compute_pipeline.rs). -/
inductive ComputePipelineCreationError where
  | OomError (e : OomError)
  | IncompatiblePipelineLayout
deriving DecidableEq, Repr

/-- `From<Error> for ComputePipelineCreationError`: exactly
`OutOfHostMemory` and `OutOfDeviceMemory` are converted to the
recoverable `OomError` variant; every other code falls into the
`panic!("unexpected error")` arm, modelled as `none`. -/
def ComputePipelineCreationError.fromError :
    Error → Option ComputePipelineCreationError
  | Error.OutOfHostMemory =>
    some (ComputePipelineCreationError.OomError OomError.OutOfHostMemory)
  | Error.OutOfDeviceMemory =>
    some (ComputePipelineCreationError.OomError OomError.OutOfDeviceMemory)
  | _ => none

/-- A created compute pipeline: the native handle plus the pipeline
layout it stores. -/
structure ComputePipeline where
  pipeline : Nat
  pipeline_layout : PipelineLayoutDesc
deriving DecidableEq, Repr

/-- `ComputePipeline::new`. `shaderLayout` is the layout description the
shader declares; `buildResult` is the outcome of
`shader.layout().clone().build(device)` (external), which the code
`.unwrap()`s — a build failure therefore panics (`none`). Then the
superset check runs, returning `IncompatiblePipelineLayout` on mismatch
before any native call; only then is the outcome of the native
`vk.CreateComputePipelines` call (`createComputePipelines`) consulted,
its error codes filtered through the `From<Error>` impl (non-OOM codes
panic). -/
def ComputePipeline.new (shaderLayout : PipelineLayoutDesc)
    (buildResult : Except Unit PipelineLayoutDesc)
    (createComputePipelines : Except Error Nat) :
    Option (Except ComputePipelineCreationError ComputePipeline) :=
  match buildResult with
  | Except.error _ => none
  | Except.ok pipeline_layout =>
    if !(PipelineLayoutSuperset.is_superset_of pipeline_layout shaderLayout) then
      some (Except.error ComputePipelineCreationError.IncompatiblePipelineLayout)
    else
      match createComputePipelines with
      | Except.error e =>
        match ComputePipelineCreationError.fromError e with
        | some ce => some (Except.error ce)
        | none => none
      | Except.ok output =>
        some (Except.ok { pipeline := output, pipeline_layout := pipeline_layout })

/-! ### Theorems about the GPU-lock counter -/

/-- Helper: every `try_gpu_lock` call leaves the wrapper with the
`already_locked` latch set, whatever it returns. -/
theorem try_gpu_lock_sets_latch (a : AccessState) (c : Nat) :
    (try_gpu_lock a c).2.1 = { alreadyLocked := true } := by
  unfold try_gpu_lock
  split
  · rfl
  · split <;> rfl

/-- C1: the claim states the shared counter never goes negative and that
a failed `try_gpu_lock` leaves the counter unchanged once the wrapper is
dropped. The code violates this: starting from counter 0 with two fresh
wrappers, the first `try_gpu_lock` succeeds (counter 1); the second
wrapper's `try_gpu_lock` fails at the counter CAS but still sets its
latch; dropping the second wrapper therefore decrements the counter it
never incremented (back to 0), and dropping the first wrapper then
decrements from 0 — its own `debug_assert!(prev_val >= 1)` is false and
the `usize` counter wraps to `2 ^ 64 - 1`. Moreover a drop only ever
subtracts 1, so a successful `try_gpu_lock` followed by one
`increase_gpu_lock` leaves the counter at 1, not 0, after the drop. -/
theorem claim_C1_gpu_lock_underflow :
    try_gpu_lock Image.access 0 = (true, { alreadyLocked := true }, 1) ∧
    try_gpu_lock Image.access 1 = (false, { alreadyLocked := true }, 1) ∧
    drop_access { alreadyLocked := true } 1 = 0 ∧
    drop_access_assert { alreadyLocked := true } 0 = false ∧
    drop_access { alreadyLocked := true } 0 = 2 ^ 64 - 1 ∧
    increase_gpu_lock 1 = 2 ∧
    drop_access { alreadyLocked := true } 2 = 1 := by
  refine ⟨rfl, rfl, ?_, by decide, ?_, ?_, ?_⟩ <;>
    simp [drop_access, increase_gpu_lock, USIZE]

/-- C7: every `try_gpu_lock` call sets the `already_locked` latch, and
any `try_gpu_lock` call on a wrapper whose latch is set returns `false`
and leaves the shared counter unchanged — so at most the first call on a
wrapper instance can succeed and later calls never touch the counter. -/
theorem claim_C7_at_most_one_success (a : AccessState) (c c2 : Nat) :
    (try_gpu_lock a c).2.1 = { alreadyLocked := true } ∧
    try_gpu_lock { alreadyLocked := true } c2 = (false, { alreadyLocked := true }, c2) :=
  ⟨try_gpu_lock_sets_latch a c, rfl⟩

/-- C9: cloning an access wrapper copies the current value of its
`already_locked` latch, so a clone of a wrapper whose latch is set can
never acquire the lock (`try_gpu_lock` returns `false`, counter
untouched), yet dropping that clone still decrements the shared counter
by one (modulo `2 ^ 64`). -/
theorem claim_C9_clone_copies_latch (a : AccessState)
    (h : a.alreadyLocked = true) (c c2 : Nat) :
    clone_access a = { alreadyLocked := true } ∧
    try_gpu_lock (clone_access a) c = (false, { alreadyLocked := true }, c) ∧
    drop_access (clone_access a) c2 = (c2 + (USIZE - 1)) % USIZE := by
  have hc : clone_access a = { alreadyLocked := true } := by
    simp [clone_access, h]
  refine ⟨hc, ?_, ?_⟩ <;> rw [hc]
  · rfl
  · simp [drop_access]

/-- Witness for C9 at a concrete latched wrapper and counters 5 and 3. -/
theorem claim_C9_witness :
    clone_access { alreadyLocked := true } = { alreadyLocked := true } ∧
    try_gpu_lock (clone_access { alreadyLocked := true }) 5 =
      (false, { alreadyLocked := true }, 5) ∧
    drop_access (clone_access { alreadyLocked := true }) 3 =
      (3 + (USIZE - 1)) % USIZE :=
  claim_C9_clone_copies_latch { alreadyLocked := true } rfl 5 3

/-! ### Theorems about the queue-type-check layer -/

/-- C3: on a `QueueTyCheckLayer` built with `supports_graphics = false`
and `supports_compute = true`, adding `CmdDispatchRaw` passes the
capability assertion and forwards the command to the inner builder,
while adding `CmdBeginRenderPass` fails its `assert!(supports_graphics)`
and aborts (modelled as `none`). -/
theorem claim_C3_queue_capability (inner : List Cmd) :
    (QueueTyCheckLayer.new inner false true).add Cmd.CmdDispatchRaw =
      some (QueueTyCheckLayer.new (inner ++ [Cmd.CmdDispatchRaw]) false true) ∧
    (QueueTyCheckLayer.new inner false true).add Cmd.CmdBeginRenderPass = none :=
  ⟨rfl, rfl⟩

/-! ### Theorems about buffer-view creation -/

/-- Helper: check 1 — a buffer with neither texel-buffer usage flag makes
`unchecked` return `WrongBufferUsage`, for every format (compressed ones
included) and every native outcome. -/
theorem unchecked_usage_check (b : UnsafeBuffer) (f : Format) (d : PhysicalDevice)
    (n : Except OomError Nat)
    (hu : b.usage_uniform_texel_buffer = false)
    (hs : b.usage_storage_texel_buffer = false) :
    BufferView.unchecked b f d n =
      some (Except.error BufferViewCreationError.WrongBufferUsage) := by
  simp [BufferView.unchecked, hu, hs]

/-- Helper: check 2 — with a texel-buffer usage declared and a
non-compressed format, an element count above the device limit makes
`unchecked` return `MaxTexelBufferElementsExceeded`, whatever the format
features and native outcome. -/
theorem unchecked_count_check (b : UnsafeBuffer) (f : Format) (d : PhysicalDevice)
    (n : Except OomError Nat) (s : Nat)
    (hu : (b.usage_uniform_texel_buffer || b.usage_storage_texel_buffer) = true)
    (hs : f.size = some s)
    (hgt : b.size / s > d.max_texel_buffer_elements) :
    BufferView.unchecked b f d n =
      some (Except.error BufferViewCreationError.MaxTexelBufferElementsExceeded) := by
  cases h1 : b.usage_uniform_texel_buffer <;> cases h2 : b.usage_storage_texel_buffer <;>
    simp_all [BufferView.unchecked]

/-- Helper: check 3a — with uniform-texel usage declared, the earlier
checks passing and the uniform-texel feature bit absent, `unchecked`
returns `UnsupportedFormat`, whatever the native outcome. -/
theorem unchecked_uniform_feature_check (b : UnsafeBuffer) (f : Format)
    (d : PhysicalDevice) (n : Except OomError Nat) (s : Nat)
    (hu : b.usage_uniform_texel_buffer = true)
    (hs : f.size = some s)
    (hle : b.size / s ≤ d.max_texel_buffer_elements)
    (hbit : d.formatBufferFeatures f.code &&&
      FORMAT_FEATURE_UNIFORM_TEXEL_BUFFER_BIT = 0) :
    BufferView.unchecked b f d n =
      some (Except.error BufferViewCreationError.UnsupportedFormat) := by
  have hngt : ¬ (b.size / s > d.max_texel_buffer_elements) := not_lt.mpr hle
  simp [BufferView.unchecked, hu, hs, hngt, hbit]

/-- Helper: check 3b — with storage-texel usage declared, the earlier
checks passing (the uniform-texel branch included) and the storage-texel
feature bit absent, `unchecked` returns `UnsupportedFormat`, whatever the
native outcome. -/
theorem unchecked_storage_feature_check (b : UnsafeBuffer) (f : Format)
    (d : PhysicalDevice) (n : Except OomError Nat) (s : Nat)
    (hst : b.usage_storage_texel_buffer = true)
    (hs : f.size = some s)
    (hle : b.size / s ≤ d.max_texel_buffer_elements)
    (huok : (b.usage_uniform_texel_buffer && (d.formatBufferFeatures f.code &&&
      FORMAT_FEATURE_UNIFORM_TEXEL_BUFFER_BIT == 0)) = false)
    (hbit : d.formatBufferFeatures f.code &&&
      FORMAT_FEATURE_STORAGE_TEXEL_BUFFER_BIT = 0) :
    BufferView.unchecked b f d n =
      some (Except.error BufferViewCreationError.UnsupportedFormat) := by
  have hngt : ¬ (b.size / s > d.max_texel_buffer_elements) := not_lt.mpr hle
  simp [BufferView.unchecked, hst, hs, hngt, huok, hbit]

/-- Helper: check 4 — when all three preceding checks pass, the result is
decided by the native creation call: a driver failure surfaces as the
mapped `OomError`, success returns the view with the derived atomic flag. -/
theorem unchecked_native_check (b : UnsafeBuffer) (f : Format) (d : PhysicalDevice)
    (s : Nat)
    (husage : (!b.usage_uniform_texel_buffer && !b.usage_storage_texel_buffer) = false)
    (hs : f.size = some s)
    (hle : b.size / s ≤ d.max_texel_buffer_elements)
    (huok : (b.usage_uniform_texel_buffer && (d.formatBufferFeatures f.code &&&
      FORMAT_FEATURE_UNIFORM_TEXEL_BUFFER_BIT == 0)) = false)
    (hsok : (b.usage_storage_texel_buffer && (d.formatBufferFeatures f.code &&&
      FORMAT_FEATURE_STORAGE_TEXEL_BUFFER_BIT == 0)) = false) :
    (∀ e : OomError, BufferView.unchecked b f d (Except.error e) =
      some (Except.error (BufferViewCreationError.OomError e))) ∧
    (∀ o : Nat, BufferView.unchecked b f d (Except.ok o) =
      some (Except.ok
        { view := o,
          buffer := b,
          atomic_accesses := d.formatBufferFeatures f.code &&&
            FORMAT_FEATURE_STORAGE_TEXEL_BUFFER_ATOMIC_BIT != 0 })) := by
  have hngt : ¬ (b.size / s > d.max_texel_buffer_elements) := not_lt.mpr hle
  constructor <;> intro x <;> simp [BufferView.unchecked, husage, hs, hngt, huok, hsok]

/-- C2: the four runtime checks of `BufferView::unchecked` run in the
fixed source order — usage flags, element count, per-declared-usage
format-feature bits, native creation — each short-circuiting with its own
error; in particular a buffer lacking both texel usages yields
`WrongBufferUsage` for every format, compressed ones included, since the
usage check precedes the element-size computation. -/
theorem claim_C2_validation_order (b : UnsafeBuffer) (f : Format) (d : PhysicalDevice)
    (n : Except OomError Nat) (s : Nat) :
    (b.usage_uniform_texel_buffer = false → b.usage_storage_texel_buffer = false →
      BufferView.unchecked b f d n =
        some (Except.error BufferViewCreationError.WrongBufferUsage)) ∧
    ((b.usage_uniform_texel_buffer || b.usage_storage_texel_buffer) = true →
      f.size = some s → b.size / s > d.max_texel_buffer_elements →
      BufferView.unchecked b f d n =
        some (Except.error BufferViewCreationError.MaxTexelBufferElementsExceeded)) ∧
    (b.usage_uniform_texel_buffer = true → f.size = some s →
      b.size / s ≤ d.max_texel_buffer_elements →
      d.formatBufferFeatures f.code &&& FORMAT_FEATURE_UNIFORM_TEXEL_BUFFER_BIT = 0 →
      BufferView.unchecked b f d n =
        some (Except.error BufferViewCreationError.UnsupportedFormat)) ∧
    (b.usage_storage_texel_buffer = true → f.size = some s →
      b.size / s ≤ d.max_texel_buffer_elements →
      (b.usage_uniform_texel_buffer && (d.formatBufferFeatures f.code &&&
        FORMAT_FEATURE_UNIFORM_TEXEL_BUFFER_BIT == 0)) = false →
      d.formatBufferFeatures f.code &&& FORMAT_FEATURE_STORAGE_TEXEL_BUFFER_BIT = 0 →
      BufferView.unchecked b f d n =
        some (Except.error BufferViewCreationError.UnsupportedFormat)) ∧
    ((!b.usage_uniform_texel_buffer && !b.usage_storage_texel_buffer) = false →
      f.size = some s → b.size / s ≤ d.max_texel_buffer_elements →
      (b.usage_uniform_texel_buffer && (d.formatBufferFeatures f.code &&&
        FORMAT_FEATURE_UNIFORM_TEXEL_BUFFER_BIT == 0)) = false →
      (b.usage_storage_texel_buffer && (d.formatBufferFeatures f.code &&&
        FORMAT_FEATURE_STORAGE_TEXEL_BUFFER_BIT == 0)) = false →
      (∀ e : OomError, BufferView.unchecked b f d (Except.error e) =
        some (Except.error (BufferViewCreationError.OomError e))) ∧
      (∀ o : Nat, BufferView.unchecked b f d (Except.ok o) =
        some (Except.ok
          { view := o,
            buffer := b,
            atomic_accesses := d.formatBufferFeatures f.code &&&
              FORMAT_FEATURE_STORAGE_TEXEL_BUFFER_ATOMIC_BIT != 0 }))) :=
  ⟨fun h1 h2 => unchecked_usage_check b f d n h1 h2,
   fun hu hs hgt => unchecked_count_check b f d n s hu hs hgt,
   fun hu hs hle hbit => unchecked_uniform_feature_check b f d n s hu hs hle hbit,
   fun hst hs hle huok hbit =>
     unchecked_storage_feature_check b f d n s hst hs hle huok hbit,
   fun husage hs hle huok hsok =>
     unchecked_native_check b f d s husage hs hle huok hsok⟩

/-- Witness for C2, driving each check at concrete inputs: a usage-less
buffer with a compressed format, an oversized buffer, a missing uniform
feature bit, a missing storage feature bit, and a driver OOM after all
checks pass. -/
theorem claim_C2_witness :
    BufferView.unchecked ⟨16, false, false⟩ ⟨0, none⟩ ⟨128, fun _ => 0⟩ (Except.ok 7) =
      some (Except.error BufferViewCreationError.WrongBufferUsage) ∧
    BufferView.unchecked ⟨64, true, false⟩ ⟨0, some 4⟩ ⟨15, fun _ => 8⟩ (Except.ok 7) =
      some (Except.error BufferViewCreationError.MaxTexelBufferElementsExceeded) ∧
    BufferView.unchecked ⟨64, true, false⟩ ⟨0, some 4⟩ ⟨16, fun _ => 0⟩ (Except.ok 7) =
      some (Except.error BufferViewCreationError.UnsupportedFormat) ∧
    BufferView.unchecked ⟨64, false, true⟩ ⟨0, some 4⟩ ⟨16, fun _ => 8⟩ (Except.ok 7) =
      some (Except.error BufferViewCreationError.UnsupportedFormat) ∧
    BufferView.unchecked ⟨64, true, true⟩ ⟨0, some 4⟩ ⟨16, fun _ => 63⟩
        (Except.error OomError.OutOfHostMemory) =
      some (Except.error (BufferViewCreationError.OomError OomError.OutOfHostMemory)) :=
  ⟨(claim_C2_validation_order ⟨16, false, false⟩ ⟨0, none⟩ ⟨128, fun _ => 0⟩
      (Except.ok 7) 1).1 rfl rfl,
   (claim_C2_validation_order ⟨64, true, false⟩ ⟨0, some 4⟩ ⟨15, fun _ => 8⟩
      (Except.ok 7) 4).2.1 rfl rfl (by decide),
   (claim_C2_validation_order ⟨64, true, false⟩ ⟨0, some 4⟩ ⟨16, fun _ => 0⟩
      (Except.ok 7) 4).2.2.1 rfl rfl (by decide) (by decide),
   (claim_C2_validation_order ⟨64, false, true⟩ ⟨0, some 4⟩ ⟨16, fun _ => 8⟩
      (Except.ok 7) 4).2.2.2.1 rfl rfl (by decide) (by decide) (by decide),
   ((claim_C2_validation_order ⟨64, true, true⟩ ⟨0, some 4⟩ ⟨16, fun _ => 63⟩
      (Except.ok 7) 4).2.2.2.2 (by decide) rfl (by decide) (by decide) (by decide)).1
      OomError.OutOfHostMemory⟩

/-- C5: with a texel usage declared and a non-compressed format, an
element count strictly above the device's `maxTexelBufferElements` limit
fails with `MaxTexelBufferElementsExceeded`, while a count exactly equal
to the limit passes the element-count check (that error is impossible). -/
theorem claim_C5_element_count_boundary (b : UnsafeBuffer) (f : Format)
    (d : PhysicalDevice) (n : Except OomError Nat) (s : Nat)
    (hu : (b.usage_uniform_texel_buffer || b.usage_storage_texel_buffer) = true)
    (hs : f.size = some s) :
    (b.size / s > d.max_texel_buffer_elements →
      BufferView.unchecked b f d n =
        some (Except.error BufferViewCreationError.MaxTexelBufferElementsExceeded)) ∧
    (b.size / s = d.max_texel_buffer_elements →
      BufferView.unchecked b f d n ≠
        some (Except.error BufferViewCreationError.MaxTexelBufferElementsExceeded)) := by
  constructor
  · exact fun hgt => unchecked_count_check b f d n s hu hs hgt
  · intro heq
    have hngt : ¬ (b.size / s > d.max_texel_buffer_elements) := by omega
    have husage :
        (!b.usage_uniform_texel_buffer && !b.usage_storage_texel_buffer) = false := by
      cases h1 : b.usage_uniform_texel_buffer <;> simp_all
    simp only [BufferView.unchecked, husage, Bool.false_eq_true, if_false, hs, hngt,
      ite_false]
    split
    · simp
    · split
      · simp
      · cases n <;> simp

/-- Witness for C5: a 64-byte buffer of 4-byte texels against limits 15
(exceeded: fails) and 16 (exact: the limit error cannot occur). -/
theorem claim_C5_witness :
    BufferView.unchecked ⟨64, true, false⟩ ⟨0, some 4⟩ ⟨15, fun _ => 8⟩ (Except.ok 7) =
      some (Except.error BufferViewCreationError.MaxTexelBufferElementsExceeded) ∧
    BufferView.unchecked ⟨64, true, false⟩ ⟨0, some 4⟩ ⟨16, fun _ => 8⟩ (Except.ok 7) ≠
      some (Except.error BufferViewCreationError.MaxTexelBufferElementsExceeded) :=
  ⟨(claim_C5_element_count_boundary ⟨64, true, false⟩ ⟨0, some 4⟩ ⟨15, fun _ => 8⟩
      (Except.ok 7) 4 rfl rfl).1 (by decide),
   (claim_C5_element_count_boundary ⟨64, true, false⟩ ⟨0, some 4⟩ ⟨16, fun _ => 8⟩
      (Except.ok 7) 4 rfl rfl).2 (by decide)⟩

/-- C8: the checked constructor `BufferView::new` delegates to
`BufferView::unchecked`, so the two behave identically on every input,
and the runtime validation is all still performed by the unchecked path:
the usage check, the element-count check, the format-feature check and
the native creation call each still decide the result of `new`. -/
theorem claim_C8_new_delegates (b : UnsafeBuffer) (f : Format) (d : PhysicalDevice)
    (n : Except OomError Nat) (s : Nat) (e : OomError) :
    BufferView.new b f d n = BufferView.unchecked b f d n ∧
    (b.usage_uniform_texel_buffer = false → b.usage_storage_texel_buffer = false →
      BufferView.new b f d n =
        some (Except.error BufferViewCreationError.WrongBufferUsage)) ∧
    ((b.usage_uniform_texel_buffer || b.usage_storage_texel_buffer) = true →
      f.size = some s → b.size / s > d.max_texel_buffer_elements →
      BufferView.new b f d n =
        some (Except.error BufferViewCreationError.MaxTexelBufferElementsExceeded)) ∧
    (b.usage_uniform_texel_buffer = true → f.size = some s →
      b.size / s ≤ d.max_texel_buffer_elements →
      d.formatBufferFeatures f.code &&& FORMAT_FEATURE_UNIFORM_TEXEL_BUFFER_BIT = 0 →
      BufferView.new b f d n =
        some (Except.error BufferViewCreationError.UnsupportedFormat)) ∧
    ((!b.usage_uniform_texel_buffer && !b.usage_storage_texel_buffer) = false →
      f.size = some s → b.size / s ≤ d.max_texel_buffer_elements →
      (b.usage_uniform_texel_buffer && (d.formatBufferFeatures f.code &&&
        FORMAT_FEATURE_UNIFORM_TEXEL_BUFFER_BIT == 0)) = false →
      (b.usage_storage_texel_buffer && (d.formatBufferFeatures f.code &&&
        FORMAT_FEATURE_STORAGE_TEXEL_BUFFER_BIT == 0)) = false →
      BufferView.new b f d (Except.error e) =
        some (Except.error (BufferViewCreationError.OomError e))) :=
  ⟨rfl,
   fun h1 h2 => unchecked_usage_check b f d n h1 h2,
   fun hu hs hgt => unchecked_count_check b f d n s hu hs hgt,
   fun hu hs hle hbit => unchecked_uniform_feature_check b f d n s hu hs hle hbit,
   fun husage hs hle huok hsok =>
     (unchecked_native_check b f d s husage hs hle huok hsok).1 e⟩

/-- Witness for C8 at a storage-texel buffer whose checks pass: `new`
agrees with `unchecked`, and a driver failure after the checks surfaces
as the mapped `OomError`. -/
theorem claim_C8_witness :
    BufferView.new ⟨64, false, true⟩ ⟨0, some 4⟩ ⟨16, fun _ => 63⟩
        (Except.error OomError.OutOfDeviceMemory) =
      BufferView.unchecked ⟨64, false, true⟩ ⟨0, some 4⟩ ⟨16, fun _ => 63⟩
        (Except.error OomError.OutOfDeviceMemory) ∧
    BufferView.new ⟨64, false, true⟩ ⟨0, some 4⟩ ⟨16, fun _ => 63⟩
        (Except.error OomError.OutOfDeviceMemory) =
      some (Except.error (BufferViewCreationError.OomError OomError.OutOfDeviceMemory)) :=
  ⟨(claim_C8_new_delegates ⟨64, false, true⟩ ⟨0, some 4⟩ ⟨16, fun _ => 63⟩
      (Except.error OomError.OutOfDeviceMemory) 4 OomError.OutOfDeviceMemory).1,
   (claim_C8_new_delegates ⟨64, false, true⟩ ⟨0, some 4⟩ ⟨16, fun _ => 63⟩
      (Except.error OomError.OutOfDeviceMemory) 4 OomError.OutOfDeviceMemory).2.2.2.2
      (by decide) rfl (by decide) (by decide) (by decide)⟩

/-! ### Theorems about compute-pipeline creation -/

/-- C4: at the native pipeline-creation call, exactly the two
resource-exhaustion error codes are converted into the recoverable
`OomError` variant of `ComputePipelineCreationError`; every other native
error code falls into the `panic!` arm of the `From<Error>` impl, so
`ComputePipeline::new` aborts (`none`) instead of returning an error. -/
theorem claim_C4_oom_mapping (sl pl : PipelineLayoutDesc) (e : Error)
    (h : PipelineLayoutSuperset.is_superset_of pl sl = true) :
    ComputePipeline.new sl (Except.ok pl) (Except.error Error.OutOfHostMemory) =
      some (Except.error
        (ComputePipelineCreationError.OomError OomError.OutOfHostMemory)) ∧
    ComputePipeline.new sl (Except.ok pl) (Except.error Error.OutOfDeviceMemory) =
      some (Except.error
        (ComputePipelineCreationError.OomError OomError.OutOfDeviceMemory)) ∧
    (e ≠ Error.OutOfHostMemory → e ≠ Error.OutOfDeviceMemory →
      ComputePipeline.new sl (Except.ok pl) (Except.error e) = none) := by
  refine ⟨?_, ?_, ?_⟩
  · simp [ComputePipeline.new, h, ComputePipelineCreationError.fromError]
  · simp [ComputePipeline.new, h, ComputePipelineCreationError.fromError]
  · intro h1 h2
    cases e <;>
      simp_all [ComputePipeline.new, ComputePipelineCreationError.fromError]

/-- Witness for C4 with the empty layout (a superset of itself): the two
OOM codes return the recoverable error, while `DeviceLost` panics. -/
theorem claim_C4_witness :
    ComputePipeline.new ⟨[]⟩ (Except.ok ⟨[]⟩) (Except.error Error.OutOfHostMemory) =
      some (Except.error
        (ComputePipelineCreationError.OomError OomError.OutOfHostMemory)) ∧
    ComputePipeline.new ⟨[]⟩ (Except.ok ⟨[]⟩) (Except.error Error.OutOfDeviceMemory) =
      some (Except.error
        (ComputePipelineCreationError.OomError OomError.OutOfDeviceMemory)) ∧
    ComputePipeline.new ⟨[]⟩ (Except.ok ⟨[]⟩) (Except.error Error.DeviceLost) = none :=
  ⟨(claim_C4_oom_mapping ⟨[]⟩ ⟨[]⟩ Error.DeviceLost rfl).1,
   (claim_C4_oom_mapping ⟨[]⟩ ⟨[]⟩ Error.DeviceLost rfl).2.1,
   (claim_C4_oom_mapping ⟨[]⟩ ⟨[]⟩ Error.DeviceLost rfl).2.2
     (by decide) (by decide)⟩

/-- C6: when the built pipeline layout is not a superset of the shader's
layout, `ComputePipeline::new` returns `IncompatiblePipelineLayout`
whatever the outcome of the native creation call (so before that call can
matter); when it is a superset, the check passes and construction
proceeds to the native call, succeeding when the driver does. -/
theorem claim_C6_superset_check (sl pl : PipelineLayoutDesc)
    (native : Except Error Nat) (o : Nat) :
    (PipelineLayoutSuperset.is_superset_of pl sl = false →
      ComputePipeline.new sl (Except.ok pl) native =
        some (Except.error ComputePipelineCreationError.IncompatiblePipelineLayout)) ∧
    (PipelineLayoutSuperset.is_superset_of pl sl = true →
      ComputePipeline.new sl (Except.ok pl) (Except.ok o) =
        some (Except.ok { pipeline := o, pipeline_layout := pl })) := by
  constructor <;> intro h <;> simp [ComputePipeline.new, h]

/-- Witness for C6 with the spec scenario: a shader requiring binding
(set 0, binding 0, UniformBuffer) against a built layout lacking it
(fails with the incompatibility error even though the driver would
succeed) and against a strict superset (succeeds). -/
theorem claim_C6_witness :
    ComputePipeline.new ⟨[(0, 0, DescriptorType.UniformBuffer)]⟩
        (Except.ok ⟨[]⟩) (Except.ok 3) =
      some (Except.error ComputePipelineCreationError.IncompatiblePipelineLayout) ∧
    ComputePipeline.new ⟨[(0, 0, DescriptorType.UniformBuffer)]⟩
        (Except.ok ⟨[(0, 0, DescriptorType.UniformBuffer),
                     (1, 0, DescriptorType.StorageBuffer)]⟩) (Except.ok 3) =
      some (Except.ok
        { pipeline := 3,
          pipeline_layout := ⟨[(0, 0, DescriptorType.UniformBuffer),
                               (1, 0, DescriptorType.StorageBuffer)]⟩ }) :=
  ⟨(claim_C6_superset_check ⟨[(0, 0, DescriptorType.UniformBuffer)]⟩ ⟨[]⟩
      (Except.ok 3) 3).1 (by decide),
   (claim_C6_superset_check ⟨[(0, 0, DescriptorType.UniformBuffer)]⟩
      ⟨[(0, 0, DescriptorType.UniformBuffer), (1, 0, DescriptorType.StorageBuffer)]⟩
      (Except.ok 3) 3).2 (by decide)⟩

/-- C10: when building the pipeline layout from the shader's layout
description fails, `ComputePipeline::new` unwraps the failure and panics
(`none`) for every shader layout and native outcome — layout-construction
failure never surfaces as a `ComputePipelineCreationError`. -/
theorem claim_C10_layout_build_panics (sl : PipelineLayoutDesc)
    (native : Except Error Nat) :
    ComputePipeline.new sl (Except.error ()) native = none := rfl

end Vulkano
